import Mathlib

/-!
# Verification of the SynthRAD2023 metrics repository

Shallow embedding of `src/functions/dose_metrics.py` and
`src/functions/image_metrics.py`.

Conventions of the embedding:
* Python/NumPy floats are modelled as rationals (`ℚ`); a JSON statistic value
  that may be `null` (Python `None`) or `NaN` is modelled by `JVal`.
* A NumPy volume is modelled as a flat `List ℚ` (all claims concern
  elementwise operations, so the 3-D shape is irrelevant).
* Fallible Python code (KeyError / TypeError / IndexError) is modelled with
  `Except String _`; the string carries the kind of exception.
* `warnings.warn` calls are collected in a list of strings.
-/

/-- A JSON statistic value: `null` (Python `None`), a float `NaN`, or a
finite float modelled as a rational number. -/
inductive JVal where
  | null : JVal
  | nan : JVal
  | num : ℚ → JVal
deriving DecidableEq, Repr

/-- Whether a `JVal` is a finite number (neither `null` nor `NaN`). -/
def JVal.isNum : JVal → Bool
  | .num _ => true
  | _ => false

/-- One organ's DVH statistics record, i.e. one JSON object of a DVH file:
a `name` plus named statistic fields (`D_2`, `D_5`, `D_98`, `mean`,
`CI_2Gy`, ...). -/
structure DVHRecord where
  name : String
  fields : List (String × JVal)
deriving DecidableEq, Repr

/-- Python `record[key]` on the statistics dict; `none` models a `KeyError`. -/
def DVHRecord.get (r : DVHRecord) (k : String) : Option JVal :=
  (r.fields.find? (fun p => p.1 = k)).map Prod.snd

/-- The dict `{dvh[i]['name']: i for i in range(len(dvh))}` looked up at `n`:
the index of the LAST record named `n` (Python dict writes overwrite). -/
def organInd (dvh : List DVHRecord) (n : String) : Option Nat :=
  ((List.range dvh.length).filter
    (fun i => match dvh[i]? with | some r => r.name == n | none => false)).getLast?

/-- Python `dvh[organ_ind[n]]`: the record selected by the name→index dict. -/
def getRec (dvh : List DVHRecord) (n : String) : Option DVHRecord :=
  match organInd dvh n with
  | none => none
  | some i => dvh[i]?

/-- Lookup in the prescribed-dose dict `{'B': 2.0, 'P': 3.0}` (or any dict
passed to the constructor). -/
def plookup (m : List (String × ℚ)) (k : String) : Option ℚ :=
  (m.find? (fun p => p.1 = k)).map Prod.snd

/-- The constructor default `prescribed_doses = {'B': 2.0, 'P': 3.0}`. -/
def defaultPrescribed : List (String × ℚ) := [("B", 2), ("P", 3)]

/-- Decimal digits of the fractional part `q` (`0 ≤ q < 1`), with fuel;
models the digits Python's float formatting prints after the point for
short decimal fractions. -/
def fracDigits : Nat → ℚ → String
  | 0, _ => ""
  | fuel + 1, q =>
    if q = 0 then ""
    else
      let d : ℤ := (q * 10).floor
      toString d ++ fracDigits fuel (q * 10 - (d : ℚ))

/-- Decimal rendering of a positive rational, modelling Python `f"{pd}"`
for floats with a short decimal expansion (e.g. `2.5 ↦ "2.5"`). -/
def ratDecimalStr (q : ℚ) : String :=
  toString q.floor ++ "." ++ fracDigits 40 (q - (q.floor : ℚ))

/-- The conformity-index field key of `dvh_metric` (lines 166–172):
`pd_str = int(pd)` when `pd % 1 == 0`, else `f"{pd}".replace('.', '_')`,
and the key is `f'CI_{pd_str}Gy'`. -/
def ciKey (pd : ℚ) : String :=
  if pd.den = 1 then "CI_" ++ toString pd.num ++ "Gy"
  else "CI_" ++ (ratDecimalStr pd).replace "." "_" ++ "Gy"

/-- The method `mae_dose` (dose_metrics.py lines 83–118): thresholded voxelwise MAE
scaled by the prescribed dose.  `None` result cannot occur; a missing
region key is a `KeyError`, mismatched shapes an `IndexError`, and the
`n = 0` case is NumPy's silent `0.0/0 = nan`. -/
def mae_dose (prescribed : List (String × ℚ)) (d_gt d_pred : List ℚ)
    (region : String) (threshold : ℚ) : Except String JVal :=
  match plookup prescribed region with
  | none => .error ("KeyError: " ++ region)
  | some pd =>
    if d_gt.length ≠ d_pred.length then
      .error "IndexError: boolean index shape mismatch"
    else
      let sel := (d_gt.zip d_pred).filter (fun p => decide (threshold * pd ≤ p.1))
      if sel.length = 0 then .ok .nan
      else .ok (.num ((sel.map (fun p => |p.1 - p.2| / pd)).sum / (sel.length : ℚ)))

/-- The method `ImageMetrics.mae` (image_metrics.py lines 54–83): mean of
`|gt*mask - pred*mask|` over `mask.sum()`; an absent mask is replaced by
all-ones, a present mask is binarized by `mask > 0`. -/
def mae (gt pred : List ℚ) (mask : Option (List ℚ)) : ℚ :=
  let m : List ℚ :=
    match mask with
    | none => List.replicate gt.length 1
    | some mk => mk.map (fun x => if 0 < x then (1 : ℚ) else 0)
  (((gt.zip pred).zip m).map (fun p => |p.1.1 * p.2 - p.1.2 * p.2|)).sum / m.sum

/-- Distinct organ names in first-occurrence order: the key order of the
Python dict `{dvh[i]['name']: i for i in range(len(dvh))}` (keys keep their
first insertion position, values are overwritten). -/
def firstOccs : List String → List String
  | [] => []
  | n :: rest => n :: firstOccs (rest.filter (fun m => decide (m ≠ n)))
termination_by l => l.length
decreasing_by
  simp only [List.length_cons]
  exact Nat.lt_succ_of_le (List.length_filter_le _ _)

/-- The organ names excluded from OAR selection (dose_metrics.py line 186). -/
def excludedOrgans : List String := ["PTV", "GTV", "CTV"]

/-- The candidate organ-at-risk names: every distinct ground-truth organ
name, in dict iteration order, that is not `PTV`/`GTV`/`CTV`. -/
def oarNames (gt : List DVHRecord) : List String :=
  (firstOccs (gt.map DVHRecord.name)).filter (fun n => decide (n ∉ excludedOrgans))

/-- The ranking key `(oar_gt['D_5'] + oar_gt['mean']) / 2` of line 188.
A missing field is a `KeyError`; a `None` operand of `+` is a `TypeError`
(Python evaluates both lookups before the addition); a `NaN` operand makes
the key `NaN`. -/
def rankKeyOf (r : DVHRecord) : Except String JVal :=
  match r.get "D_5" with
  | none => .error "KeyError: D_5"
  | some v5 =>
    match r.get "mean" with
    | none => .error "KeyError: mean"
    | some vm =>
      match v5, vm with
      | .num a, .num b => .ok (.num ((a + b) / 2))
      | .null, _ => .error "TypeError: unsupported operand type for +"
      | _, .null => .error "TypeError: unsupported operand type for +"
      | _, _ => .ok .nan

/-- The dict `mean_D5_Dmean_per_OAR` of lines 184–188, as the list of
(name, key) pairs in dict insertion order. -/
def rankPairs (gt : List DVHRecord) : List String → Except String (List (String × JVal))
  | [] => .ok []
  | n :: rest =>
    match getRec gt n with
    | none => .error ("KeyError: " ++ n)
    | some r =>
      match rankKeyOf r with
      | .error e => .error e
      | .ok v =>
        match rankPairs gt rest with
        | .error e => .error e
        | .ok ps => .ok ((n, v) :: ps)

/-- Python float `>=` on key values: `False` whenever a `NaN` is involved
(only numeric keys reach the sort on the error-free paths). -/
def jge : JVal → JVal → Bool
  | .num a, .num b => decide (b ≤ a)
  | _, _ => false

/-- Stable descending insertion: place `x` before the first element whose
key it dominates (`jge`), i.e. after every strictly larger key and before
every equal one — the placement of Python's stable
`sorted(..., reverse=True)`. -/
def insertDescP (x : String × JVal) : List (String × JVal) → List (String × JVal)
  | [] => [x]
  | y :: rest => if jge x.2 y.2 then x :: y :: rest else y :: insertDescP x rest

/-- Stable descending sort by key value, modelling
`sorted(mean_D5_Dmean_per_OAR, key=mean_D5_Dmean_per_OAR.get, reverse=True)`. -/
def sortDescP : List (String × JVal) → List (String × JVal)
  | [] => []
  | x :: l => insertDescP x (sortDescP l)

/-- Lines 183–190 of `dvh_metric`: build the ranking dict over the
non-target ground-truth organs, sort descending by key, keep the
top `min(3, len(OAR_used))` names. -/
def oarSelection (gt : List DVHRecord) : Except String (List String) :=
  match rankPairs gt (oarNames gt) with
  | .error e => .error e
  | .ok ps => .ok (((sortDescP ps).map Prod.fst).take (min 3 ps.length))

/-- Outcome of one step of `dvh_metric`'s straight-line control flow:
an uncaught exception, an early `return float('nan')` after a warning,
or a normal value. -/
inductive DStep (α : Type) where
  | err : String → DStep α
  | nanOut : String → DStep α
  | ok : α → DStep α
deriving DecidableEq, Repr

/-- One iteration of the `for organ in OAR_used` loop (lines 195–219):
look the organ up in both sets (a prediction-side miss is a `KeyError`),
guard `D_2` of ground truth then prediction (null/NaN warns and returns
`NaN`), compute the D2 term, then the same for `mean`. -/
def oarOrgan (gt pred : List DVHRecord) (eps : ℚ) (organ : String) :
    DStep (ℚ × ℚ) :=
  match getRec gt organ with
  | none => .err ("KeyError: " ++ organ)
  | some og =>
    match getRec pred organ with
    | none => .err ("KeyError: " ++ organ)
    | some opr =>
      match og.get "D_2" with
      | none => .err "KeyError: D_2"
      | some .null | some .nan =>
        .nanOut ("None or NaN value in ground truth " ++ organ ++ " D2")
      | some (.num g2) =>
        match opr.get "D_2" with
        | none => .err "KeyError: D_2"
        | some .null | some .nan =>
          .nanOut ("None or NaN value in sCT " ++ organ ++ " D2")
        | some (.num p2) =>
          match og.get "mean" with
          | none => .err "KeyError: mean"
          | some .null | some .nan =>
            .nanOut ("None or NaN value in ground truth " ++ organ ++ " Dmean")
          | some (.num gm) =>
            match opr.get "mean" with
            | none => .err "KeyError: mean"
            | some .null | some .nan =>
              .nanOut ("None or NaN value in sCT " ++ organ ++ " Dmean")
            | some (.num pm) =>
              .ok (|g2 - p2 + eps| / (g2 + eps), |gm - pm + eps| / (gm + eps))

/-- The whole `for organ in OAR_used` loop, accumulating `D2_OAR` and
`Dmean_OAR` in organ order; an exception or an early `return` of one
iteration aborts the loop. -/
def oarLoop (gt pred : List DVHRecord) (eps : ℚ) :
    List String → DStep (List ℚ × List ℚ)
  | [] => .ok ([], [])
  | organ :: rest =>
    match oarOrgan gt pred eps organ with
    | .err e => .err e
    | .nanOut w => .nanOut w
    | .ok (d2, dm) =>
      match oarLoop gt pred eps rest with
      | .err e => .err e
      | .nanOut w => .nanOut w
      | .ok (d2s, dms) => .ok (d2 :: d2s, dm :: dms)

/-- Result of `dvh_metric`: the warnings emitted (in order) and either an
uncaught exception or the returned float (`NaN` or a number). -/
structure DVHOutcome where
  warnings : List String
  result : Except String JVal

/-- Lines 183–233 of `dvh_metric`, after the target term has been
computed: OAR selection, the OAR loop, aggregation
`1/n * sum(D2_OAR) + 1/n * sum(Dmean_OAR)` (or `0` when no organ
qualifies), the `Less than 3 OARs used.` warning, and the final sum. -/
def dvhTail (gt pred : List DVHRecord) (eps target : ℚ) : DVHOutcome :=
  match oarSelection gt with
  | .error e => ⟨[], .error e⟩
  | .ok used =>
    match oarLoop gt pred eps used with
    | .err e => ⟨[], .error e⟩
    | .nanOut w => ⟨[w], .ok .nan⟩
    | .ok (d2s, dms) =>
      let oarTerm : ℚ :=
        if 0 < d2s.length then
          (1 / (d2s.length : ℚ)) * d2s.sum + (1 / (dms.length : ℚ)) * dms.sum
        else 0
      ⟨if d2s.length < 3 then ["Less than 3 OARs used."] else [],
       .ok (.num (target + oarTerm))⟩

/-- The method `dvh_metric` (dose_metrics.py lines 121–233).  Control flow in source
order: PTV lookup in both sets, `D_98` guards, `D98_target`, prescribed
dose and CI-key formation, CI guards, `V95_target`, `target_term`, then
the OAR stages of `dvhTail`. -/
def dvh_metric (prescribed : List (String × ℚ)) (gt_dvh pred_dvh : List DVHRecord)
    (region : String) (eps : ℚ) : DVHOutcome :=
  match getRec gt_dvh "PTV" with
  | none => ⟨[], .error "KeyError: PTV"⟩
  | some ptv_gt =>
    match getRec pred_dvh "PTV" with
    | none => ⟨[], .error "KeyError: PTV"⟩
    | some ptv_pred =>
      match ptv_gt.get "D_98" with
      | none => ⟨[], .error "KeyError: D_98"⟩
      | some .null | some .nan =>
        ⟨["None or NaN value in ground truth PTV D98"], .ok .nan⟩
      | some (.num g98) =>
        match ptv_pred.get "D_98" with
        | none => ⟨[], .error "KeyError: D_98"⟩
        | some .null | some .nan =>
          ⟨["None or NaN value in sCT PTV D98"], .ok .nan⟩
        | some (.num p98) =>
          let d98Target := |g98 - p98 + eps| / (g98 + eps)
          match plookup prescribed region with
          | none => ⟨[], .error ("KeyError: " ++ region)⟩
          | some pd =>
            match ptv_gt.get (ciKey pd) with
            | none => ⟨[], .error ("KeyError: " ++ ciKey pd)⟩
            | some .null | some .nan =>
              ⟨["None or NaN value in ground truth PTV CI"], .ok .nan⟩
            | some (.num gci) =>
              match ptv_pred.get (ciKey pd) with
              | none => ⟨[], .error ("KeyError: " ++ ciKey pd)⟩
              | some .null | some .nan =>
                ⟨["None or NaN value in sCT PTV CI"], .ok .nan⟩
              | some (.num pci) =>
                let v95Target := |gci - pci + eps| / (gci + eps)
                dvhTail gt_dvh pred_dvh eps (d98Target + v95Target)

/-- The score returned by a `DVHOutcome`, when it is a finite number. -/
def DVHOutcome.score? (o : DVHOutcome) : Option ℚ :=
  match o.result with
  | .ok (.num q) => some q
  | _ => none

/-- Whether an `Except` result is an uncaught exception. -/
def isErr {α : Type} : Except String α → Bool
  | .error _ => true
  | .ok _ => false

/-- The value of an `Except` when it succeeded. -/
def exOk? {α : Type} : Except String α → Option α
  | .error _ => none
  | .ok a => some a

/-- The value of a `DStep` when it completed normally. -/
def stepOk? {α : Type} : DStep α → Option α
  | .ok a => some a
  | _ => none

/-- The diagnostic `dvh_metric` emits for the first missing target
statistic, in the source's check order (gt D98, pred D98, gt CI, pred CI). -/
def firstDiag (g98 p98 gci : JVal) : String :=
  if g98.isNum = false then "None or NaN value in ground truth PTV D98"
  else if p98.isNum = false then "None or NaN value in sCT PTV D98"
  else if gci.isNum = false then "None or NaN value in ground truth PTV CI"
  else "None or NaN value in sCT PTV CI"

/-- The external world of `score_patient` (dose_metrics.py lines 18–81):
per radiation modality, which artifact files the matRad subprocess left on
disk, and the values the three metric computations would produce from
them.  File IO, `h5py`/`json` parsing and the subprocess itself are
outside the program under verification and are abstracted as oracles. -/
structure DoseEnv where
  planExists : String → Bool
  doseFilesExist : String → Bool
  dvhFilesExist : String → Bool
  gammaFileExists : String → Bool
  maeVal : String → JVal
  dvhVal : String → JVal
  gammaVal : String → JVal

/-- Python dict assignment `metrics[k] = v` on an insertion-ordered dict. -/
def setKey (m : List (String × JVal)) (k : String) (v : JVal) :
    List (String × JVal) :=
  if m.any (fun p => p.1 = k) then
    m.map (fun p => if p.1 = k then (k, v) else p)
  else m ++ [(k, v)]

/-- Dict lookup on the metrics mapping. -/
def mlookup (m : List (String × JVal)) (k : String) : Option JVal :=
  (m.find? (fun p => p.1 = k)).map Prod.snd

/-- One iteration of the `for rad_type in ['photon', 'proton']` loop of
`score_patient`: the MAE-dose, DVH and gamma blocks, each recording its
metric or warning.  Faithful to the source, including line 77, where the
missing-gamma branch assigns `metrics[f'dvh_{rad_type}']` (not the gamma
key). -/
def scoreModality (env : DoseEnv) (pid rt : String)
    (st : List (String × JVal) × List String) :
    List (String × JVal) × List String :=
  if env.planExists rt then
    let st1 :=
      if env.doseFilesExist rt then
        (setKey st.1 ("mae_target_" ++ rt) (env.maeVal rt), st.2)
      else
        (setKey st.1 ("mae_target_" ++ rt) JVal.nan,
         st.2 ++ [pid ++ ": gtdose_" ++ rt ++ ".mat and/or preddose_" ++ rt ++ ".mat not present"])
    let st2 :=
      if env.dvhFilesExist rt then
        (setKey st1.1 ("dvh_" ++ rt) (env.dvhVal rt), st1.2)
      else
        (setKey st1.1 ("dvh_" ++ rt) JVal.nan,
         st1.2 ++ [pid ++ ": ct_" ++ rt ++ ".json and/or sct_" ++ rt ++ ".json not present"])
    if env.gammaFileExists rt then
      (setKey st2.1 ("gamma_" ++ rt) (env.gammaVal rt), st2.2)
    else
      (setKey st2.1 ("dvh_" ++ rt) JVal.nan,
       st2.2 ++ [pid ++ ": gamma_" ++ rt ++ ".json not present"])
  else
    (st.1, st.2 ++ ["No " ++ rt ++ " treatment plan found for patient " ++ pid])

/-- The method `score_patient`: the loop body applied for `photon` then `proton`,
returning the metrics mapping and the warnings emitted. -/
def score_patient (env : DoseEnv) (pid : String) :
    List (String × JVal) × List String :=
  scoreModality env pid "proton" (scoreModality env pid "photon" ([], []))

section Helpers

lemma exOk?_eq_some {α : Type} {e : Except String α} {a : α}
    (h : exOk? e = some a) : e = .ok a := by
  cases e with
  | error m => simp [exOk?] at h
  | ok b => simpa [exOk?] using congrArg (Option.getD · b) h

lemma stepOk?_eq_some {α : Type} {e : DStep α} {a : α}
    (h : stepOk? e = some a) : e = .ok a := by
  cases e with
  | err m => simp [stepOk?] at h
  | nanOut m => simp [stepOk?] at h
  | ok b => simp_all [stepOk?]

lemma sum_map_div {α : Type} (l : List α) (f : α → ℚ) (c : ℚ) :
    (l.map (fun x => f x / c)).sum = (l.map f).sum / c := by
  induction l with
  | nil => simp
  | cons a l ih => simp [ih, add_div]

lemma zip_filter_map_fst (q : ℚ → Bool) (xs : List ℚ) :
    ∀ ys : List ℚ, xs.length = ys.length →
      ((xs.zip ys).filter (fun p => q p.1)).map Prod.fst = xs.filter q := by
  induction xs with
  | nil => intro ys _; simp
  | cons x xs ih =>
    intro ys h
    cases ys with
    | nil => simp at h
    | cons y ys =>
      simp only [List.zip_cons_cons, List.filter_cons]
      by_cases hq : q x
      · simp [hq, ih ys (by simpa using h)]
      · simp [hq, ih ys (by simpa using h)]

lemma zip_self_abs_sum_zero : ∀ (v m : List ℚ),
    (((v.zip v).zip m).map (fun p => |p.1.1 * p.2 - p.1.2 * p.2|)).sum = 0 := by
  intro v
  induction v with
  | nil => intro m; simp
  | cons a v ih =>
    intro m
    cases m with
    | nil => simp
    | cons b m => simp [ih]

end Helpers

/-- C10: for every non-empty volume `v` and same-shape mask with a
positive entry, `mae(v, v)` is `0`, with or without the mask. -/
theorem mae_self_zero (v mk : List ℚ) (hv : v ≠ [])
    (hlen : mk.length = v.length) (hpos : ∃ x ∈ mk, 0 < x) :
    mae v v (some mk) = 0 ∧ mae v v none = 0 := by
  constructor
  · simp only [mae]
    rw [zip_self_abs_sum_zero]
    exact zero_div _
  · simp only [mae]
    rw [zip_self_abs_sum_zero]
    exact zero_div _

/-- Witness for C10 at `v = [1, 2]`, `mask = [0, 3]`. -/
theorem mae_self_zero_witness :
    mae [1, 2] [1, 2] (some [0, 3]) = 0 ∧ mae [1, 2] [1, 2] none = 0 :=
  mae_self_zero [1, 2] [0, 3] (by decide) (by decide) (by decide)

/-- C6: with a valid region, equal shapes, a threshold in `[0, 1]` and at
least one voxel passing `d_gt >= threshold * prescribed_dose[region]`,
`mae_dose` returns `mean(|d_gt - d_pred|) / prescribed_dose[region]` over
the subset selected by the condition on `d_gt` alone, applied to both
arrays. -/
theorem mae_dose_thresholded_mean (prescribed : List (String × ℚ))
    (d_gt d_pred : List ℚ) (region : String) (threshold pd : ℚ)
    (hpd : plookup prescribed region = some pd)
    (hth : 0 ≤ threshold ∧ threshold ≤ 1)
    (hlen : d_gt.length = d_pred.length)
    (hne : (d_gt.zip d_pred).filter (fun p => decide (threshold * pd ≤ p.1)) ≠ []) :
    mae_dose prescribed d_gt d_pred region threshold =
      Except.ok (JVal.num
        ((((d_gt.zip d_pred).filter (fun p => decide (threshold * pd ≤ p.1))).map
            (fun p => |p.1 - p.2|)).sum
          / (((d_gt.zip d_pred).filter (fun p => decide (threshold * pd ≤ p.1))).length : ℚ)
          / pd))
    ∧ ((d_gt.zip d_pred).filter (fun p => decide (threshold * pd ≤ p.1))).map Prod.fst
        = d_gt.filter (fun g => decide (threshold * pd ≤ g)) := by
  have hn : ((d_gt.zip d_pred).filter (fun p => decide (threshold * pd ≤ p.1))).length ≠ 0 := by
    simpa [List.length_eq_zero] using hne
  constructor
  · simp only [mae_dose, hpd, hlen, ne_eq, not_true_eq_false, if_false, hn, if_neg]
    congr 2
    rw [show (fun p : ℚ × ℚ => |p.1 - p.2| / pd) = fun p : ℚ × ℚ => (fun x : ℚ × ℚ => |x.1 - x.2|) p / pd from rfl]
    rw [sum_map_div]
    rw [div_right_comm]
  · exact zip_filter_map_fst (fun g => decide (threshold * pd ≤ g)) d_gt d_pred hlen

/-- Witness for C6: the worked example `d_gt = [0,1,2,3]`,
`d_pred = [0,1,1,3]`, prescribed dose `1`, threshold `1`, value `1/3`. -/
theorem mae_dose_thresholded_mean_witness :
    mae_dose [("B", 1)] [0, 1, 2, 3] [0, 1, 1, 3] "B" 1 =
      Except.ok (JVal.num (1 / 3)) := by
  have h := (mae_dose_thresholded_mean [("B", 1)] [0, 1, 2, 3] [0, 1, 1, 3] "B" 1 1
    rfl (by norm_num) rfl
    (by norm_num [List.zip_cons_cons, List.filter_cons]
        exact List.cons_ne_nil _ _)).1
  rw [h]
  norm_num [List.zip_cons_cons, List.filter_cons]

/-- C7: when no voxel passes the threshold, `mae_dose` silently divides
zero by zero and yields NumPy's `nan` — an undefined result, not a raised
typed error. -/
theorem mae_dose_zero_voxels_nan (prescribed : List (String × ℚ))
    (d_gt d_pred : List ℚ) (region : String) (threshold pd : ℚ)
    (hpd : plookup prescribed region = some pd)
    (hlen : d_gt.length = d_pred.length)
    (hempty : (d_gt.zip d_pred).filter (fun p => decide (threshold * pd ≤ p.1)) = []) :
    mae_dose prescribed d_gt d_pred region threshold = Except.ok JVal.nan := by
  simp [mae_dose, hpd, hlen, hempty]

/-- Witness for C7: reachable with the orchestrator's own threshold 0.9
(`score_patient` calls `mae_dose(..., threshold=0.9)`): a single voxel of
dose 1 against prescribed dose 2. -/
theorem mae_dose_zero_voxels_nan_witness :
    mae_dose [("B", 2)] [1] [1] "B" (9 / 10) = Except.ok JVal.nan :=
  mae_dose_zero_voxels_nan [("B", 2)] [1] [1] "B" (9 / 10) 2
    rfl rfl (by norm_num [List.zip_cons_cons, List.filter_cons])

/-- C5: `dvh_metric` forms the conformity-index field key as `CI_` ++
(integer string of `pd` when it has no fractional part, else the decimal
string with `.` replaced by `_`) ++ `Gy`, and looks that exact key up in
the PTV records; `2.0 ↦ CI_2Gy` and `2.5 ↦ CI_2_5Gy`. -/
theorem dvh_ci_key_format (prescribed : List (String × ℚ))
    (gt pred : List DVHRecord) (region : String) (eps pd : ℚ)
    (rg rp : DVHRecord) (g98 p98 : ℚ)
    (hpos : 0 < pd)
    (hg : getRec gt "PTV" = some rg)
    (hp : getRec pred "PTV" = some rp)
    (h98g : rg.get "D_98" = some (JVal.num g98))
    (h98p : rp.get "D_98" = some (JVal.num p98))
    (hpd : plookup prescribed region = some pd)
    (hci : rg.get (ciKey pd) = none) :
    (dvh_metric prescribed gt pred region eps).result =
        Except.error ("KeyError: " ++ ciKey pd)
    ∧ (pd.den = 1 → ciKey pd = "CI_" ++ toString pd.num ++ "Gy")
    ∧ (pd.den ≠ 1 →
        ciKey pd = "CI_" ++ (ratDecimalStr pd).replace "." "_" ++ "Gy")
    ∧ ciKey 2 = "CI_2Gy" ∧ ciKey (5 / 2) = "CI_2_5Gy" := by
  refine ⟨?_, ?_, ?_, ?_, ?_⟩
  · simp only [dvh_metric, hg, hp, h98g, h98p, hpd, hci]
  · intro h; simp [ciKey, h]
  · intro h; simp [ciKey, h]
  · with_unfolding_all decide
  · with_unfolding_all decide

/-- Witness for C5: a prescribed dose of `2.5` produces the key
`CI_2_5Gy`, and `dvh_metric` fails with exactly that key when the PTV
record lacks it. -/
theorem dvh_ci_key_format_witness :
    (dvh_metric [("B", 5 / 2)]
      [⟨"PTV", [("D_98", JVal.num 50)]⟩]
      [⟨"PTV", [("D_98", JVal.num 48)]⟩] "B" 0).result =
        Except.error "KeyError: CI_2_5Gy"
    ∧ ciKey 2 = "CI_2Gy" ∧ ciKey (5 / 2) = "CI_2_5Gy" := by
  have h := dvh_ci_key_format [("B", 5 / 2)]
    [⟨"PTV", [("D_98", JVal.num 50)]⟩]
    [⟨"PTV", [("D_98", JVal.num 48)]⟩] "B" 0 (5 / 2)
    ⟨"PTV", [("D_98", JVal.num 50)]⟩ ⟨"PTV", [("D_98", JVal.num 48)]⟩
    50 48 (by norm_num)
    (by with_unfolding_all decide) (by with_unfolding_all decide)
    (by with_unfolding_all decide) (by with_unfolding_all decide)
    (by with_unfolding_all decide) (by with_unfolding_all decide)
  refine ⟨?_, h.2.2.2.1, h.2.2.2.2⟩
  rw [h.1, show ciKey (5 / 2) = "CI_2_5Gy" from h.2.2.2.2]
  exact congrArg Except.error (by with_unfolding_all decide)

/-- The concrete external world exhibiting the missing-gamma slip of
`score_patient`: photon plan present, dose cubes and DVH files present
(a DVH score of 5 would be computed), `gamma_photon.json` absent. -/
def envC8 : DoseEnv where
  planExists := fun rt => rt == "photon"
  doseFilesExist := fun _ => true
  dvhFilesExist := fun _ => true
  gammaFileExists := fun _ => false
  maeVal := fun _ => .num 7
  dvhVal := fun _ => .num 5
  gammaVal := fun _ => .num 95

/-- C8 (code bug, line 77 of dose_metrics.py): with the DVH artifacts
present and only the gamma file missing, `score_patient` warns about the
gamma file but then assigns the NaN to `dvh_photon` — overwriting the
computed DVH score — and records nothing under `gamma_photon`; the other
metrics and the proton modality continue to be processed. -/
theorem score_patient_missing_gamma_bug :
    mlookup (score_patient envC8 "1BA000").1 "dvh_photon" = some JVal.nan
    ∧ mlookup (score_patient envC8 "1BA000").1 "gamma_photon" = none
    ∧ mlookup (score_patient envC8 "1BA000").1 "mae_target_photon" =
        some (JVal.num 7)
    ∧ (score_patient envC8 "1BA000").2 =
        ["1BA000: gamma_photon.json not present",
         "No proton treatment plan found for patient 1BA000"] := by
  with_unfolding_all decide

/-- C1: if both DVH sets contain a PTV record and any of the four target
statistics (`D_98` and the conformity index in either set) is null or NaN,
`dvh_metric` emits exactly the one diagnostic identifying the first
missing value and returns `NaN`.  The conclusion is an exact outcome for
ARBITRARY non-PTV records in both sets (including records whose
`D_5`/`mean` would crash the OAR ranking), so neither the OAR selection
nor the OAR term is ever evaluated. -/
theorem dvh_metric_missing_target_nan (prescribed : List (String × ℚ))
    (gt pred : List DVHRecord) (region : String) (eps pd : ℚ)
    (rg rp : DVHRecord) (g98 p98 gci pci : JVal)
    (hg : getRec gt "PTV" = some rg)
    (hp : getRec pred "PTV" = some rp)
    (h98g : rg.get "D_98" = some g98)
    (h98p : rp.get "D_98" = some p98)
    (hpd : plookup prescribed region = some pd)
    (hcig : rg.get (ciKey pd) = some gci)
    (hcip : rp.get (ciKey pd) = some pci)
    (hbad : (g98.isNum && p98.isNum && gci.isNum && pci.isNum) = false) :
    dvh_metric prescribed gt pred region eps =
      ⟨[firstDiag g98 p98 gci], Except.ok JVal.nan⟩ := by
  cases g98 with
  | null => simp [dvh_metric, hg, hp, h98g, firstDiag, JVal.isNum]
  | nan => simp [dvh_metric, hg, hp, h98g, firstDiag, JVal.isNum]
  | num a =>
    cases p98 with
    | null => simp [dvh_metric, hg, hp, h98g, h98p, firstDiag, JVal.isNum]
    | nan => simp [dvh_metric, hg, hp, h98g, h98p, firstDiag, JVal.isNum]
    | num b =>
      cases gci with
      | null =>
        simp [dvh_metric, hg, hp, h98g, h98p, hpd, hcig, firstDiag, JVal.isNum]
      | nan =>
        simp [dvh_metric, hg, hp, h98g, h98p, hpd, hcig, firstDiag, JVal.isNum]
      | num c =>
        cases pci with
        | null =>
          simp [dvh_metric, hg, hp, h98g, h98p, hpd, hcig, hcip, firstDiag,
            JVal.isNum]
        | nan =>
          simp [dvh_metric, hg, hp, h98g, h98p, hpd, hcig, hcip, firstDiag,
            JVal.isNum]
        | num d => simp [JVal.isNum] at hbad

/-- Witness for C1: a null ground-truth PTV `D_98`, in the presence of a
non-target organ whose null `D_5` would crash the OAR ranking if it were
evaluated. -/
theorem dvh_metric_missing_target_nan_witness :
    dvh_metric defaultPrescribed
      [⟨"PTV", [("D_98", JVal.null), ("CI_2Gy", JVal.num (9 / 10))]⟩,
       ⟨"Bad", [("D_5", JVal.null), ("mean", JVal.num 1)]⟩]
      [⟨"PTV", [("D_98", JVal.num 48), ("CI_2Gy", JVal.num (85 / 100))]⟩]
      "B" (1 / 1000000000000) =
      ⟨["None or NaN value in ground truth PTV D98"], Except.ok JVal.nan⟩ := by
  have h := dvh_metric_missing_target_nan defaultPrescribed
    [⟨"PTV", [("D_98", JVal.null), ("CI_2Gy", JVal.num (9 / 10))]⟩,
     ⟨"Bad", [("D_5", JVal.null), ("mean", JVal.num 1)]⟩]
    [⟨"PTV", [("D_98", JVal.num 48), ("CI_2Gy", JVal.num (85 / 100))]⟩]
    "B" (1 / 1000000000000) 2
    ⟨"PTV", [("D_98", JVal.null), ("CI_2Gy", JVal.num (9 / 10))]⟩
    ⟨"PTV", [("D_98", JVal.num 48), ("CI_2Gy", JVal.num (85 / 100))]⟩
    JVal.null (JVal.num 48) (JVal.num (9 / 10)) (JVal.num (85 / 100))
    (by with_unfolding_all decide) (by with_unfolding_all decide)
    (by with_unfolding_all decide) (by with_unfolding_all decide)
    (by with_unfolding_all decide) (by with_unfolding_all decide)
    (by with_unfolding_all decide) (by with_unfolding_all decide)
  rw [h]
  simp [firstDiag, JVal.isNum]

/-- Reduction of `dvh_metric` through its target stage: when the PTV is
present in both sets and all four target statistics are finite numbers,
the result is `dvhTail` applied to the target term
`|D98_gt - D98_pred + eps| / (D98_gt + eps) +
 |CI_gt - CI_pred + eps| / (CI_gt + eps)`. -/
lemma dvh_metric_reduce_target (prescribed : List (String × ℚ))
    (gt pred : List DVHRecord) (region : String) (eps pd : ℚ)
    (rg rp : DVHRecord) (g98 p98 gci pci : ℚ)
    (hg : getRec gt "PTV" = some rg)
    (hp : getRec pred "PTV" = some rp)
    (h98g : rg.get "D_98" = some (JVal.num g98))
    (h98p : rp.get "D_98" = some (JVal.num p98))
    (hpd : plookup prescribed region = some pd)
    (hcig : rg.get (ciKey pd) = some (JVal.num gci))
    (hcip : rp.get (ciKey pd) = some (JVal.num pci)) :
    dvh_metric prescribed gt pred region eps =
      dvhTail gt pred eps
        (|g98 - p98 + eps| / (g98 + eps) + |gci - pci + eps| / (gci + eps)) := by
  simp [dvh_metric, hg, hp, h98g, h98p, hpd, hcig, hcip]

/-- C3: with a valid PTV in both sets, `dvh_metric` returns
`D98_term + CI_term + OAR_term`, where
`D98_term = |D98_gt - D98_pred + eps| / (D98_gt + eps)` and
`CI_term = |CI_gt - CI_pred + eps| / (CI_gt + eps)` (the small epsilon
added inside the numerator and to the denominator), and `OAR_term` is the
aggregate of the evaluated-organ terms. -/
theorem dvh_metric_target_formula (prescribed : List (String × ℚ))
    (gt pred : List DVHRecord) (region : String) (eps pd : ℚ)
    (rg rp : DVHRecord) (g98 p98 gci pci : ℚ)
    (used : List String) (d2s dms : List ℚ)
    (hg : getRec gt "PTV" = some rg)
    (hp : getRec pred "PTV" = some rp)
    (h98g : rg.get "D_98" = some (JVal.num g98))
    (h98p : rp.get "D_98" = some (JVal.num p98))
    (hpd : plookup prescribed region = some pd)
    (hcig : rg.get (ciKey pd) = some (JVal.num gci))
    (hcip : rp.get (ciKey pd) = some (JVal.num pci))
    (hsel : exOk? (oarSelection gt) = some used)
    (hloop : stepOk? (oarLoop gt pred eps used) = some (d2s, dms)) :
    (dvh_metric prescribed gt pred region eps).score? =
      some ((|g98 - p98 + eps| / (g98 + eps) + |gci - pci + eps| / (gci + eps))
        + (if 0 < d2s.length then
            (1 / (d2s.length : ℚ)) * d2s.sum + (1 / (dms.length : ℚ)) * dms.sum
          else 0)) := by
  rw [dvh_metric_reduce_target prescribed gt pred region eps pd rg rp g98 p98 gci pci
    hg hp h98g h98p hpd hcig hcip]
  simp [dvhTail, exOk?_eq_some hsel, stepOk?_eq_some hloop, DVHOutcome.score?]

/-- The ground-truth DVH set of the spec's worked example: PTV with
`D_98 = 50`, `CI_2Gy = 0.9`, and three OARs. -/
def gtC3 : List DVHRecord :=
  [⟨"PTV", [("D_98", JVal.num 50), ("CI_2Gy", JVal.num (9 / 10))]⟩,
   ⟨"OAR1", [("D_2", JVal.num 30), ("D_5", JVal.num 25), ("mean", JVal.num 15)]⟩,
   ⟨"OAR2", [("D_2", JVal.num 28), ("D_5", JVal.num 22), ("mean", JVal.num 12)]⟩,
   ⟨"OAR3", [("D_2", JVal.num 20), ("D_5", JVal.num 18), ("mean", JVal.num 10)]⟩]

/-- The predicted DVH set of the worked example: PTV with `D_98 = 48`,
`CI_2Gy = 0.85`, and the same three OARs with identical `D_2`/`mean`. -/
def predC3 : List DVHRecord :=
  [⟨"PTV", [("D_98", JVal.num 48), ("CI_2Gy", JVal.num (85 / 100))]⟩,
   ⟨"OAR1", [("D_2", JVal.num 30), ("D_5", JVal.num 25), ("mean", JVal.num 15)]⟩,
   ⟨"OAR2", [("D_2", JVal.num 28), ("D_5", JVal.num 22), ("mean", JVal.num 12)]⟩,
   ⟨"OAR3", [("D_2", JVal.num 20), ("D_5", JVal.num 18), ("mean", JVal.num 10)]⟩]

/-- Witness for C3: the spec's end-to-end example (OARs identical on both
sides, so `OAR_term = 0`) scores within `1e-4` of `0.0956`. -/
theorem dvh_metric_target_formula_witness :
    ∃ q : ℚ,
      (dvh_metric defaultPrescribed gtC3 predC3 "B" 0).score? = some q
      ∧ |q - 956 / 10000| < 1 / 10000 := by
  have h := dvh_metric_target_formula defaultPrescribed gtC3 predC3 "B"
    0 2
    ⟨"PTV", [("D_98", JVal.num 50), ("CI_2Gy", JVal.num (9 / 10))]⟩
    ⟨"PTV", [("D_98", JVal.num 48), ("CI_2Gy", JVal.num (85 / 100))]⟩
    50 48 (9 / 10) (85 / 100)
    ["OAR1", "OAR2", "OAR3"]
    [0, 0, 0]
    [0, 0, 0]
    (by with_unfolding_all decide) (by with_unfolding_all decide)
    (by with_unfolding_all decide) (by with_unfolding_all decide)
    (by with_unfolding_all decide) (by with_unfolding_all decide)
    (by with_unfolding_all decide) (by with_unfolding_all decide)
    (by with_unfolding_all decide)
  exact ⟨_, h, by with_unfolding_all decide⟩

/-- When the OAR loop completes normally, both accumulated term lists have
one entry per evaluated organ. -/
lemma oarLoop_ok_lengths (gt pred : List DVHRecord) (eps : ℚ) :
    ∀ (names : List String) (d2s dms : List ℚ),
      oarLoop gt pred eps names = .ok (d2s, dms) →
      d2s.length = names.length ∧ dms.length = names.length := by
  intro names
  induction names with
  | nil =>
    intro d2s dms h
    rw [oarLoop] at h
    cases h
    simp
  | cons organ rest ih =>
    intro d2s dms h
    rw [oarLoop] at h
    cases ho : oarOrgan gt pred eps organ with
    | err e => rw [ho] at h; cases h
    | nanOut w => rw [ho] at h; cases h
    | ok p =>
      rw [ho] at h
      cases hr : oarLoop gt pred eps rest with
      | err e => rw [hr] at h; cases h
      | nanOut w => rw [hr] at h; cases h
      | ok q =>
        rw [hr] at h
        obtain ⟨d2, dm⟩ := p
        obtain ⟨d2s', dms'⟩ := q
        cases h
        obtain ⟨h1, h2⟩ := ih d2s' dms' hr
        simp [h1, h2]

/-- C4: when the target statistics are valid and all `n` evaluated organs
(`n = 0, 1, 2, 3`) have valid `D_2` and `mean` on both sides, `OAR_term`
is the mean of the `n` D2 terms plus the mean of the `n` Dmean terms
(`0` when `n = 0`), the score is computed and returned, and the only
warning — emitted exactly when `n < 3` — is the non-fatal
`Less than 3 OARs used.`. -/
theorem dvh_metric_oar_aggregation (prescribed : List (String × ℚ))
    (gt pred : List DVHRecord) (region : String) (eps pd : ℚ)
    (rg rp : DVHRecord) (g98 p98 gci pci : ℚ)
    (used : List String) (d2s dms : List ℚ)
    (hg : getRec gt "PTV" = some rg)
    (hp : getRec pred "PTV" = some rp)
    (h98g : rg.get "D_98" = some (JVal.num g98))
    (h98p : rp.get "D_98" = some (JVal.num p98))
    (hpd : plookup prescribed region = some pd)
    (hcig : rg.get (ciKey pd) = some (JVal.num gci))
    (hcip : rp.get (ciKey pd) = some (JVal.num pci))
    (hsel : exOk? (oarSelection gt) = some used)
    (hloop : stepOk? (oarLoop gt pred eps used) = some (d2s, dms)) :
    dvh_metric prescribed gt pred region eps =
      ⟨if d2s.length < 3 then ["Less than 3 OARs used."] else [],
       Except.ok (JVal.num
        ((|g98 - p98 + eps| / (g98 + eps) + |gci - pci + eps| / (gci + eps))
          + (if d2s.length = 0 then 0
             else d2s.sum / (d2s.length : ℚ) + dms.sum / (dms.length : ℚ))))⟩
    ∧ d2s.length = used.length ∧ dms.length = used.length := by
  obtain ⟨hl1, hl2⟩ :=
    oarLoop_ok_lengths gt pred eps used d2s dms (stepOk?_eq_some hloop)
  refine ⟨?_, hl1, hl2⟩
  rw [dvh_metric_reduce_target prescribed gt pred region eps pd rg rp g98 p98 gci pci
    hg hp h98g h98p hpd hcig hcip]
  simp only [dvhTail, exOk?_eq_some hsel, stepOk?_eq_some hloop]
  rcases Nat.eq_zero_or_pos d2s.length with hz | hpos
  · simp [hz, if_neg (by omega : ¬ (0:Nat) < 0)]
  · have hnz : d2s.length ≠ 0 := Nat.pos_iff_ne_zero.mp hpos
    simp [if_pos hpos, hnz, one_div_mul_eq_div]
    rw [inv_mul_eq_div, inv_mul_eq_div]

/-- The ground-truth set for the C4 witness: a valid PTV and only two
OARs, so the `n < 3` warning fires while a score is still returned. -/
def gtC4 : List DVHRecord :=
  [⟨"PTV", [("D_98", JVal.num 50), ("CI_2Gy", JVal.num (9 / 10))]⟩,
   ⟨"A", [("D_2", JVal.num 30), ("D_5", JVal.num 25), ("mean", JVal.num 15)]⟩,
   ⟨"B", [("D_2", JVal.num 28), ("D_5", JVal.num 22), ("mean", JVal.num 12)]⟩]

/-- The prediction set for the C4 witness. -/
def predC4 : List DVHRecord :=
  [⟨"PTV", [("D_98", JVal.num 48), ("CI_2Gy", JVal.num (85 / 100))]⟩,
   ⟨"A", [("D_2", JVal.num 27), ("mean", JVal.num 12)]⟩,
   ⟨"B", [("D_2", JVal.num 21), ("mean", JVal.num 6)]⟩]

/-- Witness for C4 with `n = 2 < 3`: the warning is emitted and the score
is still computed and returned. -/
theorem dvh_metric_oar_aggregation_witness :
    (dvh_metric defaultPrescribed gtC4 predC4 "B" 0).warnings =
      ["Less than 3 OARs used."]
    ∧ (∃ q : ℚ, (dvh_metric defaultPrescribed gtC4 predC4 "B" 0).score? = some q) := by
  have h := (dvh_metric_oar_aggregation defaultPrescribed gtC4 predC4 "B" 0 2
    ⟨"PTV", [("D_98", JVal.num 50), ("CI_2Gy", JVal.num (9 / 10))]⟩
    ⟨"PTV", [("D_98", JVal.num 48), ("CI_2Gy", JVal.num (85 / 100))]⟩
    50 48 (9 / 10) (85 / 100)
    ["A", "B"] [1 / 10, 1 / 4] [1 / 5, 1 / 2]
    (by with_unfolding_all decide) (by with_unfolding_all decide)
    (by with_unfolding_all decide) (by with_unfolding_all decide)
    (by with_unfolding_all decide) (by with_unfolding_all decide)
    (by with_unfolding_all decide) (by with_unfolding_all decide)
    (by with_unfolding_all decide)).1
  rw [h]
  constructor
  · simp
  · exact ⟨_, rfl⟩

/-- A null `D_5` or `mean` makes the ranking-key computation raise
(`TypeError` from `None` in the addition, or `KeyError` if the other
field is also absent) — there is no null guard in lines 183–190. -/
lemma rankKeyOf_error_of_null (r : DVHRecord)
    (h : r.get "D_5" = some JVal.null ∨ r.get "mean" = some JVal.null) :
    ∃ e, rankKeyOf r = .error e := by
  rcases h with h5 | hm
  · cases hm : r.get "mean" with
    | none => exact ⟨"KeyError: mean", by simp [rankKeyOf, h5, hm]⟩
    | some vm =>
      exact ⟨"TypeError: unsupported operand type for +",
        by simp [rankKeyOf, h5, hm]⟩
  · cases h5 : r.get "D_5" with
    | none => exact ⟨"KeyError: D_5", by simp [rankKeyOf, h5]⟩
    | some v5 =>
      cases v5 with
      | null =>
        exact ⟨"TypeError: unsupported operand type for +",
          by simp [rankKeyOf, h5, hm]⟩
      | nan =>
        exact ⟨"TypeError: unsupported operand type for +",
          by simp [rankKeyOf, h5, hm]⟩
      | num a =>
        exact ⟨"TypeError: unsupported operand type for +",
          by simp [rankKeyOf, h5, hm]⟩

/-- If any organ of the ranking loop has a raising key computation, the
whole ranking raises (with the first raising organ's exception). -/
lemma rankPairs_error_of_mem (gt : List DVHRecord) (n : String) (r : DVHRecord)
    (hr : getRec gt n = some r) (hkey : ∃ e, rankKeyOf r = .error e) :
    ∀ names : List String, n ∈ names → ∃ e, rankPairs gt names = .error e := by
  intro names
  induction names with
  | nil => intro h; cases h
  | cons m rest ih =>
    intro hmem
    by_cases hm : m = n
    · subst hm
      obtain ⟨e, he⟩ := hkey
      exact ⟨e, by simp [rankPairs, hr, he]⟩
    · have hrest : n ∈ rest := by
        rcases List.mem_cons.mp hmem with h | h
        · exact absurd h.symm hm
        · exact h
      obtain ⟨e', he'⟩ := ih hrest
      cases hgm : getRec gt m with
      | none => exact ⟨"KeyError: " ++ m, by simp [rankPairs, hgm]⟩
      | some rm =>
        cases hkm : rankKeyOf rm with
        | error e2 => exact ⟨e2, by simp [rankPairs, hgm, hkm]⟩
        | ok v => exact ⟨e', by simp [rankPairs, hgm, hkm, he']⟩

/-- C9: with valid target statistics, a null `D_5` or `mean` in ANY
non-target ground-truth organ makes `dvh_metric` raise an uncaught
exception instead of returning the `NaN` sentinel, because the ranking
key is computed for every non-target organ with no null guard. -/
theorem dvh_null_rank_key_raises (prescribed : List (String × ℚ))
    (gt pred : List DVHRecord) (region : String) (eps pd : ℚ)
    (rg rp : DVHRecord) (g98 p98 gci pci : ℚ) (n : String) (r : DVHRecord)
    (hg : getRec gt "PTV" = some rg)
    (hp : getRec pred "PTV" = some rp)
    (h98g : rg.get "D_98" = some (JVal.num g98))
    (h98p : rp.get "D_98" = some (JVal.num p98))
    (hpd : plookup prescribed region = some pd)
    (hcig : rg.get (ciKey pd) = some (JVal.num gci))
    (hcip : rp.get (ciKey pd) = some (JVal.num pci))
    (hn : n ∈ oarNames gt)
    (hr : getRec gt n = some r)
    (hnull : r.get "D_5" = some JVal.null ∨ r.get "mean" = some JVal.null) :
    isErr (dvh_metric prescribed gt pred region eps).result = true := by
  rw [dvh_metric_reduce_target prescribed gt pred region eps pd rg rp g98 p98 gci pci
    hg hp h98g h98p hpd hcig hcip]
  obtain ⟨e, he⟩ := rankPairs_error_of_mem gt n r hr
    (rankKeyOf_error_of_null r hnull) (oarNames gt) hn
  simp [dvhTail, oarSelection, he, isErr]

/-- The ground-truth set for the C9 witness: a valid PTV, three highly
dosed organs, and a low-ranked organ `Low` whose `D_5` is null — `Low`
would never be among the 3 selected, yet the call raises. -/
def gtC9 : List DVHRecord :=
  [⟨"PTV", [("D_98", JVal.num 50), ("CI_2Gy", JVal.num (9 / 10))]⟩,
   ⟨"A", [("D_5", JVal.num 40), ("mean", JVal.num 20)]⟩,
   ⟨"B", [("D_5", JVal.num 30), ("mean", JVal.num 20)]⟩,
   ⟨"C", [("D_5", JVal.num 28), ("mean", JVal.num 12)]⟩,
   ⟨"Low", [("D_5", JVal.null), ("mean", JVal.num 1)]⟩]

/-- The prediction set for the C9 witness. -/
def predC9 : List DVHRecord :=
  [⟨"PTV", [("D_98", JVal.num 48), ("CI_2Gy", JVal.num (85 / 100))]⟩]

/-- Witness for C9 at the `Low` organ of `gtC9`. -/
theorem dvh_null_rank_key_raises_witness :
    isErr (dvh_metric defaultPrescribed gtC9 predC9 "B" 0).result = true :=
  dvh_null_rank_key_raises defaultPrescribed gtC9 predC9 "B" 0 2
    ⟨"PTV", [("D_98", JVal.num 50), ("CI_2Gy", JVal.num (9 / 10))]⟩
    ⟨"PTV", [("D_98", JVal.num 48), ("CI_2Gy", JVal.num (85 / 100))]⟩
    50 48 (9 / 10) (85 / 100) "Low"
    ⟨"Low", [("D_5", JVal.null), ("mean", JVal.num 1)]⟩
    (by with_unfolding_all decide) (by with_unfolding_all decide)
    (by with_unfolding_all decide) (by with_unfolding_all decide)
    (by with_unfolding_all decide) (by with_unfolding_all decide)
    (by with_unfolding_all decide) (by with_unfolding_all decide)
    (by with_unfolding_all decide) (Or.inl (by with_unfolding_all decide))

lemma jval_isNum_iff {v : JVal} : v.isNum = true ↔ ∃ q, v = JVal.num q := by
  cases v <;> simp [JVal.isNum]

lemma jge_trans {a b c : JVal} (ha : a.isNum = true) (hb : b.isNum = true)
    (hc : c.isNum = true) (h1 : jge a b = true) (h2 : jge b c = true) :
    jge a c = true := by
  obtain ⟨qa, rfl⟩ := jval_isNum_iff.mp ha
  obtain ⟨qb, rfl⟩ := jval_isNum_iff.mp hb
  obtain ⟨qc, rfl⟩ := jval_isNum_iff.mp hc
  simp only [jge, decide_eq_true_eq] at h1 h2 ⊢
  exact le_trans h2 h1

lemma jge_total {a b : JVal} (ha : a.isNum = true) (hb : b.isNum = true)
    (h : ¬ jge a b = true) : jge b a = true := by
  obtain ⟨qa, rfl⟩ := jval_isNum_iff.mp ha
  obtain ⟨qb, rfl⟩ := jval_isNum_iff.mp hb
  simp only [jge, decide_eq_true_eq] at h ⊢
  exact le_of_not_le h

lemma mem_insertDescP {x y : String × JVal} {l : List (String × JVal)} :
    y ∈ insertDescP x l ↔ y = x ∨ y ∈ l := by
  induction l with
  | nil => simp [insertDescP]
  | cons z rest ih =>
    simp only [insertDescP]
    by_cases h : jge x.2 z.2 = true
    · rw [if_pos h]
      simp [List.mem_cons]
    · rw [if_neg h]
      simp only [List.mem_cons, ih]
      tauto

lemma perm_insertDescP (x : String × JVal) (l : List (String × JVal)) :
    List.Perm (insertDescP x l) (x :: l) := by
  induction l with
  | nil => exact List.Perm.refl _
  | cons z rest ih =>
    simp only [insertDescP]
    by_cases h : jge x.2 z.2 = true
    · rw [if_pos h]
    · rw [if_neg h]
      exact (ih.cons z).trans (List.Perm.swap x z rest)

lemma perm_sortDescP (l : List (String × JVal)) :
    List.Perm (sortDescP l) l := by
  induction l with
  | nil => exact List.Perm.refl _
  | cons x rest ih =>
    exact (perm_insertDescP x (sortDescP rest)).trans (ih.cons x)

lemma pairwise_insertDescP {x : String × JVal} {s : List (String × JVal)}
    (hx : x.2.isNum = true) (hs : ∀ y ∈ s, y.2.isNum = true)
    (hp : s.Pairwise (fun a b => jge a.2 b.2 = true)) :
    (insertDescP x s).Pairwise (fun a b => jge a.2 b.2 = true) := by
  induction s with
  | nil => simp [insertDescP]
  | cons y rest ih =>
    have hy : y.2.isNum = true := hs y (List.mem_cons_self y rest)
    have hrest : ∀ z ∈ rest, z.2.isNum = true :=
      fun z hz => hs z (List.mem_cons_of_mem y hz)
    obtain ⟨hyrel, hprest⟩ := List.pairwise_cons.mp hp
    simp only [insertDescP]
    by_cases h : jge x.2 y.2 = true
    · rw [if_pos h]
      refine List.Pairwise.cons ?_ hp
      intro z hz
      rcases List.mem_cons.mp hz with rfl | hzr
      · exact h
      · exact jge_trans hx hy (hrest z hzr) h (hyrel z hzr)
    · rw [if_neg h]
      refine List.Pairwise.cons ?_ (ih hrest hprest)
      intro z hz
      rcases mem_insertDescP.mp hz with rfl | hzr
      · exact jge_total hx hy h
      · exact hyrel z hzr

lemma pairwise_sortDescP (l : List (String × JVal))
    (hl : ∀ x ∈ l, x.2.isNum = true) :
    (sortDescP l).Pairwise (fun a b => jge a.2 b.2 = true) := by
  induction l with
  | nil => simp [sortDescP]
  | cons x rest ih =>
    simp only [sortDescP]
    refine pairwise_insertDescP (hl x (List.mem_cons_self x rest)) ?_
      (ih (fun y hy => hl y (List.mem_cons_of_mem x hy)))
    intro y hy
    exact hl y
      (List.mem_cons_of_mem x ((perm_sortDescP rest).mem_iff.mp hy))

lemma filter_insertDescP (x : String × JVal) (q : ℚ) :
    ∀ s : List (String × JVal),
      (insertDescP x s).filter (fun z => decide (z.2 = JVal.num q)) =
        if x.2 = JVal.num q then
          x :: s.filter (fun z => decide (z.2 = JVal.num q))
        else s.filter (fun z => decide (z.2 = JVal.num q)) := by
  intro s
  induction s with
  | nil =>
    by_cases hx : x.2 = JVal.num q <;> simp [insertDescP, List.filter_cons, hx]
  | cons y rest ih =>
    simp only [insertDescP]
    by_cases hj : jge x.2 y.2 = true
    · rw [if_pos hj]
      by_cases hx : x.2 = JVal.num q <;> simp [List.filter_cons, hx]
    · rw [if_neg hj]
      by_cases hx : x.2 = JVal.num q
      · have hy : ¬ (y.2 = JVal.num q) := by
          intro hy
          apply hj
          rw [hx, hy]
          simp [jge]
        simp [List.filter_cons, hy, hx, ih]
      · by_cases hy : y.2 = JVal.num q <;>
          simp [List.filter_cons, hy, hx, ih]

lemma filter_sortDescP (q : ℚ) : ∀ l : List (String × JVal),
    (sortDescP l).filter (fun z => decide (z.2 = JVal.num q)) =
      l.filter (fun z => decide (z.2 = JVal.num q)) := by
  intro l
  induction l with
  | nil => rfl
  | cons x rest ih =>
    simp only [sortDescP]
    rw [filter_insertDescP]
    by_cases hx : x.2 = JVal.num q <;> simp [List.filter_cons, hx, ih]

/-- A successful ranking covers exactly the candidate names, in order. -/
lemma rankPairs_ok_map_fst (gt : List DVHRecord) :
    ∀ (names : List String) (ps : List (String × JVal)),
      rankPairs gt names = .ok ps → ps.map Prod.fst = names := by
  intro names
  induction names with
  | nil =>
    intro ps h
    rw [rankPairs] at h
    cases h
    rfl
  | cons n rest ih =>
    intro ps h
    rw [rankPairs] at h
    split at h
    next => cases h
    next r heq =>
      split at h
      next e hk => cases h
      next v hk =>
        split at h
        next e hr => cases h
        next ps' hr =>
          cases h
          simp [ih ps' hr]

/-- Every pair of a successful ranking is the `(D_5 + mean)/2` key of the
organ's ground-truth record. -/
lemma rankPairs_ok_mem (gt : List DVHRecord) :
    ∀ (names : List String) (ps : List (String × JVal)),
      rankPairs gt names = .ok ps →
      ∀ x ∈ ps, ∃ r, getRec gt x.1 = some r ∧ rankKeyOf r = .ok x.2 := by
  intro names
  induction names with
  | nil =>
    intro ps h
    rw [rankPairs] at h
    cases h
    intro x hx
    cases hx
  | cons n rest ih =>
    intro ps h
    rw [rankPairs] at h
    split at h
    next => cases h
    next r heq =>
      split at h
      next e hk => cases h
      next v hk =>
        split at h
        next e hr => cases h
        next ps' hr =>
          cases h
          intro x hx
          rcases List.mem_cons.mp hx with rfl | hx'
          · exact ⟨r, heq, hk⟩
          · exact ih ps' hr x hx'

lemma mem_firstOccs_aux : ∀ (k : Nat) (l : List String), l.length ≤ k →
    ∀ n, n ∈ firstOccs l → n ∈ l := by
  intro k
  induction k with
  | zero =>
    intro l hl n h
    cases l with
    | nil => simp [firstOccs] at h
    | cons m rest => simp at hl
  | succ k ih =>
    intro l hl n h
    cases l with
    | nil => simp [firstOccs] at h
    | cons m rest =>
      simp only [firstOccs] at h
      rcases List.mem_cons.mp h with rfl | h2
      · exact List.mem_cons_self _ _
      · have hlen : (rest.filter (fun x => decide (x ≠ m))).length ≤ k :=
          le_trans (List.length_filter_le _ _) (by simpa using hl)
        exact List.mem_cons_of_mem _
          (List.mem_of_mem_filter (ih _ hlen n h2))

lemma mem_firstOccs {l : List String} {n : String}
    (h : n ∈ firstOccs l) : n ∈ l :=
  mem_firstOccs_aux l.length l (le_refl _) n h

/-- C2: when every non-target ground-truth organ has a numeric ranking
key, the OAR selection of `dvh_metric` is the first `min(3, count)` names
of the stable descending sort of the (name, `(D_5+mean)/2`-key) pairs:
it covers exactly the non-`PTV`/`GTV`/`CTV` ground-truth organs, its keys
come from the ground-truth records, the sorted list is a permutation of
the candidates in weakly decreasing key order, equal-key organs keep
their original insertion order, and exactly `min 3 count` organs are
selected, all of them non-target ground-truth organs. -/
theorem dvh_oar_selection (gt : List DVHRecord) (ps : List (String × JVal))
    (kq : String → ℚ)
    (hps : exOk? (rankPairs gt (oarNames gt)) = some ps)
    (hnum : ∀ x ∈ ps, x.2 = JVal.num (kq x.1)) :
    oarSelection gt =
      Except.ok (((sortDescP ps).map Prod.fst).take (min 3 ps.length))
    ∧ ps.map Prod.fst = oarNames gt
    ∧ (∀ x ∈ ps, ∃ r, getRec gt x.1 = some r ∧ rankKeyOf r = Except.ok x.2)
    ∧ (((sortDescP ps).map Prod.fst).take (min 3 ps.length)).length
        = min 3 (oarNames gt).length
    ∧ List.Perm (sortDescP ps) ps
    ∧ (sortDescP ps).Pairwise (fun x y => kq y.1 ≤ kq x.1)
    ∧ (∀ q : ℚ, (sortDescP ps).filter (fun z => decide (z.2 = JVal.num q))
        = ps.filter (fun z => decide (z.2 = JVal.num q)))
    ∧ (∀ n ∈ ((sortDescP ps).map Prod.fst).take (min 3 ps.length),
        n ∈ oarNames gt ∧ n ∉ excludedOrgans ∧ n ∈ gt.map DVHRecord.name) := by
  have hok := exOk?_eq_some hps
  have hmap := rankPairs_ok_map_fst gt (oarNames gt) ps hok
  have hperm := perm_sortDescP ps
  have hlen : (sortDescP ps).length = ps.length := hperm.length_eq
  refine ⟨?_, hmap, rankPairs_ok_mem gt (oarNames gt) ps hok, ?_, hperm, ?_,
    fun q => filter_sortDescP q ps, ?_⟩
  · simp only [oarSelection, hok]
  · rw [List.length_take, List.length_map, hlen, ← hmap, List.length_map,
      min_assoc, min_self]
  · have hnum' : ∀ x ∈ sortDescP ps, x.2 = JVal.num (kq x.1) :=
      fun x hx => hnum x (hperm.mem_iff.mp hx)
    have hpw := pairwise_sortDescP ps (fun x hx => by rw [hnum x hx]; rfl)
    refine hpw.imp_of_mem ?_
    intro a b ha hb hj
    rw [hnum' a ha, hnum' b hb] at hj
    simpa [jge] using hj
  · intro n hn
    have hn' : n ∈ (sortDescP ps).map Prod.fst := List.mem_of_mem_take hn
    obtain ⟨x, hx, rfl⟩ := List.mem_map.mp hn'
    have hxps : x ∈ ps := hperm.mem_iff.mp hx
    have hfst : x.1 ∈ oarNames gt := by
      rw [← hmap]
      exact List.mem_map_of_mem Prod.fst hxps
    have h2 := List.mem_filter.mp (show _ from hfst)
    exact ⟨hfst, of_decide_eq_true h2.2, mem_firstOccs h2.1⟩

/-- The ground-truth set for the C2 witness: the targets `PTV` and `GTV`
plus four organs with keys 9, 9, 12, 9 — a three-way tie resolved by
insertion order. -/
def gtC2 : List DVHRecord :=
  [⟨"PTV", []⟩, ⟨"GTV", []⟩,
   ⟨"Alpha", [("D_5", JVal.num 8), ("mean", JVal.num 10)]⟩,
   ⟨"Beta", [("D_5", JVal.num 9), ("mean", JVal.num 9)]⟩,
   ⟨"Gamma", [("D_5", JVal.num 14), ("mean", JVal.num 10)]⟩,
   ⟨"Delta", [("D_5", JVal.num 10), ("mean", JVal.num 8)]⟩]

/-- Witness for C2: `Gamma` (key 12) first, then the tied `Alpha` and
`Beta` (key 9) in insertion order; `Delta` (key 9, inserted last) is cut
by the top-3 rule, and `PTV`/`GTV` are excluded. -/
theorem dvh_oar_selection_witness :
    oarSelection gtC2 = Except.ok ["Gamma", "Alpha", "Beta"]
    ∧ (["Gamma", "Alpha", "Beta"] : List String).length
        = min 3 (oarNames gtC2).length := by
  have h := dvh_oar_selection gtC2
    [("Alpha", JVal.num 9), ("Beta", JVal.num 9),
     ("Gamma", JVal.num 12), ("Delta", JVal.num 9)]
    (fun n => if n = "Gamma" then 12 else 9)
    (by with_unfolding_all decide) (by with_unfolding_all decide)
  have heq : ((sortDescP [("Alpha", JVal.num 9), ("Beta", JVal.num 9),
      ("Gamma", JVal.num 12), ("Delta", JVal.num 9)]).map Prod.fst).take
      (min 3 ([("Alpha", JVal.num 9), ("Beta", JVal.num 9),
        ("Gamma", JVal.num 12), ("Delta", JVal.num 9)]).length) =
      ["Gamma", "Alpha", "Beta"] := by
    with_unfolding_all decide
  exact ⟨h.1.trans (congrArg Except.ok heq), by with_unfolding_all decide⟩
